import Mathlib

/-!
Shallow embedding of `src/src/background/main.ts` of the `download-box`
browser extension: the download-state aggregator (unseen buffer, color
policy, aggregate percentage, poll timer, event handlers).

JS values that may be `undefined` are modelled with `Option`; a JS
`TypeError` (reading a property of `undefined`) is modelled with
`Except Unit`; JS number division is modelled by `jsDiv`, whose result is
`nan` for `0/0`, `inf` for `n/0` with `n > 0`, and a rational otherwise.
-/

/-- Download states of the external download source (`chrome.downloads`). -/
inductive DState
  | in_progress
  | interrupted
  | complete
deriving DecidableEq, Repr

/-- A download record as modelled by the spec's data model (§3): optional
fields are explicit `Option`s. -/
structure DownloadItem where
  id : Nat
  state : DState
  paused : Bool
  error : Option String
  bytesReceived : Option Nat
  fileSize : Option Nat
deriving DecidableEq, Repr

/-- Summary colors (`Color` in `./draw`). -/
inductive Color
  | Normal
  | Paused
  | Complete
  | Error
deriving DecidableEq, Repr

/-- Message kinds exchanged with the popup (`Message` in `@/common`). -/
inductive Message
  | Ping
  | StatusCheck
  | PopupOpened
deriving DecidableEq, Repr

/-- A JS number that can be the result of a division: NaN, Infinity, or a
rational value. -/
inductive JSNum
  | nan
  | inf
  | val (q : ℚ)
deriving DecidableEq, Repr

/-- JS division of two nonnegative integers: `0/0` is NaN, `n/0` with
`n > 0` is Infinity. -/
def jsDiv (n d : Nat) : JSNum :=
  if d = 0 then (if n = 0 then JSNum.nan else JSNum.inf) else JSNum.val ((n : ℚ) / (d : ℚ))

/-- Observable side effects of the manager: outbound messages
(`runtime.sendMessage`) and icon redraws (`this.icon.draw(color, frac?)`,
where an omitted fraction is `none`). -/
inductive Event
  | send (m : Message)
  | draw (c : Color) (frac : Option JSNum)
deriving DecidableEq, Repr

/-- Size of a tick in milliseconds (`TICK_MS`). -/
def TICK_MS : Nat := 500

/-- Environment: the responses the external download source gives to the two
`search` queries the manager issues (`{state: 'in_progress'}` and `{id}`). -/
structure Env where
  active : List DownloadItem
  byId : Nat → List DownloadItem

/-- The `state` part of a `DownloadDelta`: the new and old state. -/
structure StateDelta where
  current : DState
  previous : Option DState
deriving DecidableEq, Repr

/-- A `chrome.downloads.DownloadDelta` restricted to the fields the code
reads: `id` and the optional `state` change. -/
structure DownloadDelta where
  id : Nat
  state : Option StateDelta
deriving DecidableEq, Repr

/-- JS `e.startsWith(pre)`, modelled on the underlying character sequence:
`pre` is a prefix of `e`. -/
def strStarts (pre e : String) : Bool :=
  pre.data.isPrefixOf e.data

/-- `d.error?.startsWith('USER_')` for an optional error string: `false`
(JS `undefined`, falsy) when the error is absent. -/
def isUserError : Option String → Bool
  | none => false
  | some e => strStarts "USER_" e

/-- The first-priority test of the color chain, on one buffer entry:
`d.state == 'interrupted' && !d.error?.startsWith('USER_')`. -/
def errFlag (d : DownloadItem) : Bool :=
  if d.state = DState.interrupted then ! isUserError d.error else false

/-- The third-priority test of the color chain, on one buffer entry:
`c.state == 'complete'`. -/
def completeFlag (d : DownloadItem) : Bool :=
  if d.state = DState.complete then true else false

/-- JS `Array.prototype.some` with a callback that may throw (used to model
`this.unchecked.some(...)` on a buffer that may hold `undefined`). -/
def someE (p : α → Except Unit Bool) : List α → Except Unit Bool
  | [] => Except.ok false
  | x :: xs =>
    match p x with
    | Except.error e => Except.error e
    | Except.ok true => Except.ok true
    | Except.ok false => someE p xs

/-- Reading `d.state` on a buffer entry that is `undefined` throws a
`TypeError`; on a real record the first-priority test is evaluated. -/
def errCheck : Option DownloadItem → Except Unit Bool
  | none => Except.error ()
  | some d => Except.ok (errFlag d)

/-- Reading `c.state` on a buffer entry that is `undefined` throws a
`TypeError`; on a real record the third-priority test is evaluated. -/
def completeCheck : Option DownloadItem → Except Unit Bool
  | none => Except.error ()
  | some d => Except.ok (completeFlag d)

/-- The color-choosing IIFE inside `drawIcon`, lines 163-179, over a buffer
whose entries may be `undefined`. -/
def summaryColorE (unchecked : List (Option DownloadItem)) (active : List DownloadItem) :
    Except Unit Color := do
  if (← someE errCheck unchecked) then
    return Color.Error
  if active.any (fun item => item.paused) then
    return Color.Paused
  if (← someE completeCheck unchecked) then
    return Color.Complete
  return Color.Normal

/-- The same color chain on a buffer of genuine records (what the
TypeScript types claim the buffer holds). -/
def summaryColor (unchecked active : List DownloadItem) : Color :=
  if unchecked.any errFlag then Color.Error
  else if active.any (fun item => item.paused) then Color.Paused
  else if unchecked.any completeFlag then Color.Complete
  else Color.Normal

/-- JS truthiness of an optional number: `false` when absent or zero. -/
def truthyN : Option Nat → Bool
  | none => false
  | some n => n ≠ 0

/-- Modelled from the spec: `computePercentage` lives in `@/common`, which is
not under `src/`. Spec §4.1: a pure function mapping one download record to a
`(receivedBytes, totalBytes)` pair; a record lacking both `bytesReceived` and
`fileSize` contributes `(0, 0)`. -/
def computePercentage (d : DownloadItem) : Nat × Nat :=
  (d.bytesReceived.getD 0, d.fileSize.getD 0)

/-- One step of the reduce at lines 188-199: skip the entry when
`!cur || !cur.bytesReceived || (!cur.bytesReceived && !cur.fileSize)`,
otherwise accumulate its `computePercentage` pair. -/
def aggStep (acc : Nat × Nat) (cur : Option DownloadItem) : Nat × Nat :=
  match cur with
  | none => acc
  | some d =>
    if (! truthyN d.bytesReceived) || ((! truthyN d.bytesReceived) && (! truthyN d.fileSize)) then
      acc
    else
      (acc.1 + (computePercentage d).1, acc.2 + (computePercentage d).2)

/-- The whole reduce: fold `aggStep` over `allDownloads` starting from
`{num: 0, den: 0}`. -/
def aggregate (l : List (Option DownloadItem)) : Nat × Nat :=
  l.foldl aggStep (0, 0)

/-- `drawIcon` (lines 159-207): query active downloads, choose the color,
and emit one draw request — with a fraction `num/den` over
`[...this.unchecked, ...activeDownloads]` when the active list is non-empty,
without a fraction otherwise. Throws when the color chain throws. -/
def drawIconE (unchecked : List (Option DownloadItem)) (env : Env) : Except Unit Event := do
  let activeDownloads := env.active
  let color ← summaryColorE unchecked activeDownloads
  if activeDownloads.length > 0 then
    let nd := aggregate (unchecked ++ activeDownloads.map Option.some)
    return Event.draw color (some (jsDiv nd.1 nd.2))
  else
    return Event.draw color none

/-- The events an un-awaited (fire-and-forget) call to `drawIcon` makes
visible: the draw if it succeeds, nothing if it throws. -/
def eventsOf : Except Unit Event → List Event
  | Except.ok e => [e]
  | Except.error _ => []

/-- The mutable state of the `DownloadManager` singleton: the timer handle
(`this.timer`), the set of live intervals of the runtime, a fresh-handle
counter, and the unseen buffer (`this.unchecked`), whose entries may be
`undefined`. -/
structure MState where
  timer : Option Nat
  intervals : List Nat
  nextId : Nat
  unchecked : List (Option DownloadItem)
deriving DecidableEq, Repr

/-- Result of running a handler: the new state, the visible events in
order, and whether the handler's promise rejected. -/
structure HResult where
  state : MState
  events : List Event
  errored : Bool
deriving DecidableEq, Repr

/-- Whether a delta reports a transition into a terminal state: the code's
`delta.state !== undefined` and `state == 'interrupted' || state == 'complete'`. -/
def isTerminalDelta (delta : DownloadDelta) : Bool :=
  match delta.state with
  | none => false
  | some sd =>
    if sd.current = DState.interrupted ∨ sd.current = DState.complete then true else false

/-- `onChanged` (lines 64-81): always send `Ping`; when the delta carries a
terminal state change, destructure the head of `search({id: delta.id})`
(which is `undefined` on a miss), push it onto the buffer and send
`StatusCheck`; always finish by awaiting `drawIcon`. -/
def onChanged (env : Env) (delta : DownloadDelta) (s : MState) : HResult :=
  let push := isTerminalDelta delta
  let s1 :=
    if push then { s with unchecked := s.unchecked ++ [(env.byId delta.id).head?] } else s
  let ev1 :=
    Event.send Message.Ping :: (if push then [Event.send Message.StatusCheck] else [])
  match drawIconE s1.unchecked env with
  | Except.ok e => ⟨s1, ev1 ++ [e], false⟩
  | Except.error _ => ⟨s1, ev1, true⟩

/-- `onMessage` (lines 88-94): on `PopupOpened`, clear the buffer and redraw
(un-awaited); ignore every other message kind. -/
def onMessage (env : Env) (m : Message) (s : MState) : HResult :=
  if m = Message.PopupOpened then
    ⟨{ s with unchecked := [] }, eventsOf (drawIconE [] env), false⟩
  else
    ⟨s, [], false⟩

/-- `stop` (lines 127-137): release the interval handle if one exists. -/
def stop (s : MState) : MState :=
  match s.timer with
  | none => s
  | some h => { s with timer := none, intervals := s.intervals.filter (fun x => x ≠ h) }

/-- `tick` (lines 144-153): re-query active downloads; if any, send `Ping`
and redraw (un-awaited); otherwise stop the timer. -/
def tick (env : Env) (s : MState) : MState × List Event :=
  if env.active.length > 0 then
    (s, Event.send Message.Ping :: eventsOf (drawIconE s.unchecked env))
  else
    (stop s, [])

/-- `start` (lines 108-121): return at once when the timer is already
running or when no download is active; otherwise create the interval and run
one tick immediately. -/
def start (env : Env) (s : MState) : MState × List Event :=
  if s.timer.isSome then (s, [])
  else if env.active.length ≤ 0 then (s, [])
  else
    let h := s.nextId
    let s1 := { s with timer := some h, intervals := s.intervals ++ [h], nextId := s.nextId + 1 }
    tick env s1

/-- `onCreated` (lines 53-56): send `Ping`, then `start`. -/
def onCreated (env : Env) (s : MState) : MState × List Event :=
  let r := start env s
  (r.1, Event.send Message.Ping :: r.2)

/-- `onErased` (lines 100-102): send `Ping` only. -/
def onErased (s : MState) : MState × List Event :=
  (s, [Event.send Message.Ping])

/-- At most one live timer, and the handle field tracks it: either the
timer is `null` and no interval is live, or the stored handle is the single
live interval, with the fresh-handle counter past it. -/
def timerOk (s : MState) : Bool :=
  match s.timer with
  | none => decide (s.intervals = [])
  | some h => decide (s.intervals = [h]) && decide (h < s.nextId)

/-! ### Helper lemmas -/

theorem someE_errCheck_map (l : List DownloadItem) :
    someE errCheck (l.map Option.some) = Except.ok (l.any errFlag) := by
  induction l with
  | nil => rfl
  | cons d t ih =>
    simp only [List.map_cons, someE, errCheck, List.any_cons]
    cases h : errFlag d <;> simp [h, ih]

theorem someE_completeCheck_map (l : List DownloadItem) :
    someE completeCheck (l.map Option.some) = Except.ok (l.any completeFlag) := by
  induction l with
  | nil => rfl
  | cons d t ih =>
    simp only [List.map_cons, someE, completeCheck, List.any_cons]
    cases h : completeFlag d <;> simp [h, ih]

theorem summaryColorE_map (l a : List DownloadItem) :
    summaryColorE (l.map Option.some) a = Except.ok (summaryColor l a) := by
  simp only [summaryColorE, summaryColor, bind, Except.bind, someE_errCheck_map,
    someE_completeCheck_map]
  cases h1 : l.any errFlag <;> cases h2 : a.any (fun item => item.paused) <;>
    cases h3 : l.any completeFlag <;> simp [h1, h2, h3, pure, Except.pure]


/-- The condition of priority 1, in the spec's words: state `interrupted`
and an error that does not begin with `USER_`. -/
def specErrorCond (u : List DownloadItem) : Prop :=
  ∃ d ∈ u, d.state = DState.interrupted ∧ ¬ ∃ e, d.error = some e ∧ strStarts "USER_" e = true

/-- The condition of priority 2, in the spec's words: some active record is
paused. -/
def specPausedCond (a : List DownloadItem) : Prop :=
  ∃ d ∈ a, d.paused = true

/-- The condition of priority 3, in the spec's words: some unseen record has
state `complete`. -/
def specCompleteCond (u : List DownloadItem) : Prop :=
  ∃ d ∈ u, d.state = DState.complete

theorem errFlag_iff (d : DownloadItem) :
    errFlag d = true ↔
      d.state = DState.interrupted ∧ ¬ ∃ e, d.error = some e ∧ strStarts "USER_" e = true := by
  unfold errFlag isUserError
  by_cases h : d.state = DState.interrupted
  · cases he : d.error <;> simp [h, he]
  · simp [h]

theorem any_errFlag_iff (u : List DownloadItem) :
    u.any errFlag = true ↔ specErrorCond u := by
  simp only [List.any_eq_true, specErrorCond, errFlag_iff]

theorem any_paused_iff (a : List DownloadItem) :
    a.any (fun item => item.paused) = true ↔ specPausedCond a := by
  simp only [List.any_eq_true, specPausedCond]

theorem any_completeFlag_iff (u : List DownloadItem) :
    u.any completeFlag = true ↔ specCompleteCond u := by
  simp only [List.any_eq_true, specCompleteCond, completeFlag]
  constructor
  · rintro ⟨d, hd, h⟩
    refine ⟨d, hd, ?_⟩
    by_cases hs : d.state = DState.complete
    · exact hs
    · simp [hs] at h
  · rintro ⟨d, hd, h⟩
    exact ⟨d, hd, by simp [h]⟩

theorem summaryColor_error_iff (u a : List DownloadItem) :
    summaryColor u a = Color.Error ↔ specErrorCond u := by
  rw [← any_errFlag_iff]
  unfold summaryColor
  cases h1 : u.any errFlag <;> cases h2 : a.any (fun item => item.paused) <;>
    cases h3 : u.any completeFlag <;> simp [h1, h2, h3]

theorem summaryColor_paused_iff (u a : List DownloadItem) :
    summaryColor u a = Color.Paused ↔ ¬ specErrorCond u ∧ specPausedCond a := by
  rw [← any_errFlag_iff, ← any_paused_iff]
  unfold summaryColor
  cases h1 : u.any errFlag <;> cases h2 : a.any (fun item => item.paused) <;>
    cases h3 : u.any completeFlag <;> simp [h1, h2, h3]

theorem summaryColor_complete_iff (u a : List DownloadItem) :
    summaryColor u a = Color.Complete ↔
      ¬ specErrorCond u ∧ ¬ specPausedCond a ∧ specCompleteCond u := by
  rw [← any_errFlag_iff, ← any_paused_iff, ← any_completeFlag_iff]
  unfold summaryColor
  cases h1 : u.any errFlag <;> cases h2 : a.any (fun item => item.paused) <;>
    cases h3 : u.any completeFlag <;> simp [h1, h2, h3]

theorem summaryColor_normal_iff (u a : List DownloadItem) :
    summaryColor u a = Color.Normal ↔
      ¬ specErrorCond u ∧ ¬ specPausedCond a ∧ ¬ specCompleteCond u := by
  rw [← any_errFlag_iff, ← any_paused_iff, ← any_completeFlag_iff]
  unfold summaryColor
  cases h1 : u.any errFlag <;> cases h2 : a.any (fun item => item.paused) <;>
    cases h3 : u.any completeFlag <;> simp [h1, h2, h3]

/-- C1: the summary color is chosen by strict first-match priority — Error
when some unseen record is `interrupted` with an error not beginning with
`USER_`; otherwise Paused when some active record is paused; otherwise
Complete when some unseen record is `complete`; otherwise Normal. In
particular an unseen interrupted record whose error begins with `USER_`
never by itself causes Error. -/
theorem summaryColor_first_match (u a : List DownloadItem) :
    (summaryColor u a = Color.Error ↔ specErrorCond u) ∧
    (summaryColor u a = Color.Paused ↔ ¬ specErrorCond u ∧ specPausedCond a) ∧
    (summaryColor u a = Color.Complete ↔
      ¬ specErrorCond u ∧ ¬ specPausedCond a ∧ specCompleteCond u) ∧
    (summaryColor u a = Color.Normal ↔
      ¬ specErrorCond u ∧ ¬ specPausedCond a ∧ ¬ specCompleteCond u) ∧
    (∀ d : DownloadItem, d.state = DState.interrupted →
      (∃ e, d.error = some e ∧ strStarts "USER_" e = true) →
      ∀ b : List DownloadItem, summaryColor [d] b ≠ Color.Error) := by
  refine ⟨summaryColor_error_iff u a, summaryColor_paused_iff u a,
    summaryColor_complete_iff u a, summaryColor_normal_iff u a, ?_⟩
  intro d _hs he b hcol
  rcases (summaryColor_error_iff [d] b).mp hcol with ⟨d', hd', _h1, h2⟩
  simp only [List.mem_singleton] at hd'
  subst hd'
  exact h2 he

/-- Witness for C1: a user-cancelled interrupted record alone does not give
Error (here next to a paused active record). -/
theorem summaryColor_first_match_witness :
    summaryColor [⟨1, DState.interrupted, false, some "USER_CANCELED", none, none⟩]
      [⟨2, DState.in_progress, true, none, some 5, some 10⟩] ≠ Color.Error :=
  (summaryColor_first_match [] []).2.2.2.2
    ⟨1, DState.interrupted, false, some "USER_CANCELED", none, none⟩ rfl
    ⟨"USER_CANCELED", rfl, rfl⟩
    [⟨2, DState.in_progress, true, none, some 5, some 10⟩]

/-! ### C2 and C4: aggregation and its division by zero -/

theorem aggStep_some (acc : Nat × Nat) (d : DownloadItem) :
    aggStep acc (some d) =
      if truthyN d.bytesReceived then
        (acc.1 + (computePercentage d).1, acc.2 + (computePercentage d).2)
      else acc := by
  cases h : truthyN d.bytesReceived <;> simp [aggStep, h]

theorem aggregate_foldl (l : List DownloadItem) (acc : Nat × Nat) :
    (l.map Option.some).foldl aggStep acc =
      (l.filter (fun d => truthyN d.bytesReceived)).foldl
        (fun acc d => (acc.1 + (computePercentage d).1, acc.2 + (computePercentage d).2)) acc := by
  induction l generalizing acc with
  | nil => rfl
  | cons d t ih =>
    simp only [List.map_cons, List.foldl_cons, List.filter_cons, aggStep_some]
    cases h : truthyN d.bytesReceived <;> simp [h, ih]

/-- C2 (amended): in the aggregate, a member is excluded from both sums
exactly when its `bytesReceived` is absent or zero — its `fileSize` is
never consulted by the exclusion test; every other member contributes its
Percentage Calculator pair. -/
theorem aggregate_exclusion (l : List DownloadItem) :
    aggregate (l.map Option.some) =
      (l.filter (fun d => truthyN d.bytesReceived)).foldl
        (fun acc d => (acc.1 + (computePercentage d).1, acc.2 + (computePercentage d).2)) (0, 0) :=
  aggregate_foldl l (0, 0)

/-- Counterexample for C2 as stated: a record with `fileSize` present (so it
does not lack both byte fields) and a Percentage Calculator pair of
`(0, 100)` is nevertheless excluded — the sums stay `(0, 0)` instead of
becoming `(0, 100)` — because its `bytesReceived` is absent. -/
theorem aggregate_excludes_despite_fileSize :
    (¬ ((⟨1, DState.in_progress, false, none, none, some 100⟩ : DownloadItem).bytesReceived = none ∧
        (⟨1, DState.in_progress, false, none, none, some 100⟩ : DownloadItem).fileSize = none)) ∧
    computePercentage ⟨1, DState.in_progress, false, none, none, some 100⟩ = (0, 100) ∧
    aggregate [some ⟨1, DState.in_progress, false, none, none, some 100⟩] = (0, 0) := by
  refine ⟨by decide, rfl, rfl⟩

/-- C4 (amended): when the active list is non-empty and the aggregation
excludes every member (both sums are zero), the redraw is still issued and
no exception occurs, but the fraction it carries is NaN — the undefined
ratio `0/0` — rather than a defined fallback. -/
theorem drawIcon_all_excluded_nan (l : List DownloadItem) (env : Env)
    (hne : env.active ≠ [])
    (hz : aggregate (l.map Option.some ++ env.active.map Option.some) = (0, 0)) :
    drawIconE (l.map Option.some) env =
      Except.ok (Event.draw (summaryColor l env.active) (some JSNum.nan)) := by
  have hlen : 0 < env.active.length := List.length_pos.mpr hne
  simp only [drawIconE, bind, Except.bind, summaryColorE_map, hlen, if_pos, gt_iff_lt, hz]
  rfl

/-- Witness for C4's amended theorem: a single just-started active download
(no bytes received yet) yields a redraw carrying NaN. -/
theorem drawIcon_all_excluded_nan_witness :
    drawIconE [] ⟨[⟨2, DState.in_progress, true, none, none, none⟩], fun _ => []⟩ =
      Except.ok (Event.draw Color.Paused (some JSNum.nan)) := by
  have h := drawIcon_all_excluded_nan []
    ⟨[⟨2, DState.in_progress, true, none, none, none⟩], fun _ => []⟩ (by decide) rfl
  exact h

/-- Counterexample for C4 as stated: one active download lacking both byte
fields; the redraw request carries `NaN`, which is neither an omitted
fraction nor the value `0`. -/
theorem drawIcon_nan_counterexample :
    drawIconE [] ⟨[⟨1, DState.in_progress, false, none, none, some 100⟩], fun _ => []⟩ =
      Except.ok (Event.draw Color.Normal (some JSNum.nan)) ∧
    some JSNum.nan ≠ (none : Option JSNum) ∧
    JSNum.nan ≠ JSNum.val 0 := by
  refine ⟨rfl, by decide, by decide⟩

/-! ### Redraw on well-formed buffers, and the idle case -/

theorem drawIconE_map_ok (l : List DownloadItem) (env : Env) :
    drawIconE (l.map Option.some) env =
      Except.ok (Event.draw (summaryColor l env.active)
        (if env.active.length > 0 then
          some (jsDiv (aggregate (l.map Option.some ++ env.active.map Option.some)).1
            (aggregate (l.map Option.some ++ env.active.map Option.some)).2)
        else none)) := by
  simp only [drawIconE, bind, Except.bind, summaryColorE_map]
  by_cases h : env.active.length > 0 <;> simp [h, pure, Except.pure]

/-- C10: when the active list is empty at redraw time, the redraw carries
the summary color only and no fraction, even for a non-empty unseen buffer;
and when the buffer is empty as well, the color is Normal. -/
theorem drawIcon_no_active (l : List DownloadItem) (env : Env) (h : env.active = []) :
    drawIconE (l.map Option.some) env =
      Except.ok (Event.draw (summaryColor l []) none) ∧
    (l = [] → drawIconE (l.map Option.some) env =
      Except.ok (Event.draw Color.Normal none)) := by
  constructor
  · simp [drawIconE_map_ok, h]
  · rintro rfl
    have h2 := drawIconE_map_ok [] env
    rw [h] at h2
    simpa [summaryColor] using h2

/-- Witness for C10: a freshly completed record in the buffer and no active
download: the redraw is `(Complete)` with no fraction. -/
theorem drawIcon_no_active_witness :
    drawIconE [some ⟨1, DState.complete, false, none, some 100, some 100⟩] ⟨[], fun _ => []⟩ =
      Except.ok (Event.draw Color.Complete none) :=
  (drawIcon_no_active [⟨1, DState.complete, false, none, some 100, some 100⟩]
    ⟨[], fun _ => []⟩ rfl).1

/-! ### C3 and C6: a by-id lookup miss on a terminal delta -/

/-- C3 at the failing input: a terminal delta whose by-id lookup returns
nothing does not degrade to a no-op — the buffer gains the `undefined`
entry and the handler's concluding redraw throws, rejecting the handler. -/
theorem onChanged_lookup_miss :
    onChanged ⟨[], fun _ => []⟩ ⟨7, some ⟨DState.interrupted, some DState.in_progress⟩⟩
        ⟨none, [], 0, []⟩ =
      ⟨⟨none, [], 0, [none]⟩,
        [Event.send Message.Ping, Event.send Message.StatusCheck], true⟩ := by
  rfl

/-- C6 at the failing input: after a terminal delta whose lookup misses, the
unseen buffer holds an entry that is no download record at all, so the
terminal-records-only invariant is broken by the change handler. -/
theorem onChanged_lookup_miss_breaks_invariant :
    ((onChanged ⟨[], fun _ => []⟩ ⟨3, some ⟨DState.complete, some DState.in_progress⟩⟩
        ⟨none, [], 0, [some ⟨1, DState.complete, false, none, some 5, some 5⟩]⟩).state.unchecked.any
      (fun o => o.isNone)) = true := by
  rfl

/-! ### C5: the change-handler contract -/

theorem onChanged_eq_terminal (env : Env) (delta : DownloadDelta) (s : MState)
    (hp : isTerminalDelta delta = true) :
    onChanged env delta s =
      (match drawIconE (s.unchecked ++ [(env.byId delta.id).head?]) env with
        | Except.ok e =>
          ⟨{ s with unchecked := s.unchecked ++ [(env.byId delta.id).head?] },
            [Event.send Message.Ping, Event.send Message.StatusCheck, e], false⟩
        | Except.error _ =>
          ⟨{ s with unchecked := s.unchecked ++ [(env.byId delta.id).head?] },
            [Event.send Message.Ping, Event.send Message.StatusCheck], true⟩) := by
  simp only [onChanged, hp, if_true]
  cases drawIconE (s.unchecked ++ [(env.byId delta.id).head?]) env <;> rfl

theorem onChanged_eq_other (env : Env) (delta : DownloadDelta) (s : MState)
    (hp : isTerminalDelta delta = false) :
    onChanged env delta s =
      (match drawIconE s.unchecked env with
        | Except.ok e => ⟨s, [Event.send Message.Ping, e], false⟩
        | Except.error _ => ⟨s, [Event.send Message.Ping], true⟩) := by
  simp only [onChanged, hp, Bool.false_eq_true, if_false]
  cases drawIconE s.unchecked env <;> rfl

/-- C5: every change event emits `Ping` first; exactly when the delta
carries a terminal new state does the handler fetch the record by id,
append it to the buffer and emit `StatusCheck`; and the handler concludes
with the redraw of the updated buffer. Stated for a well-formed buffer and
a by-id lookup that finds the record. -/
theorem onChanged_contract (env : Env) (delta : DownloadDelta) (l : List DownloadItem)
    (s : MState) (hbuf : s.unchecked = l.map Option.some)
    (hid : isTerminalDelta delta = true → ∃ r rest, env.byId delta.id = r :: rest) :
    ((onChanged env delta s).events.head? = some (Event.send Message.Ping)) ∧
    (isTerminalDelta delta = true →
      ∃ r rest, env.byId delta.id = r :: rest ∧
        (onChanged env delta s).state.unchecked = s.unchecked ++ [some r] ∧
        Event.send Message.StatusCheck ∈ (onChanged env delta s).events) ∧
    (isTerminalDelta delta = false →
      (onChanged env delta s).state = s ∧
      Event.send Message.StatusCheck ∉ (onChanged env delta s).events) ∧
    ((onChanged env delta s).errored = false ∧
      ∃ e, drawIconE (onChanged env delta s).state.unchecked env = Except.ok e ∧
        (onChanged env delta s).events.getLast? = some e) := by
  cases hp : isTerminalDelta delta
  · rw [onChanged_eq_other env delta s hp, hbuf, drawIconE_map_ok]
    exact ⟨rfl, fun hc => by simp [hp] at hc, fun _ => ⟨rfl, by simp⟩, rfl,
      ⟨_, by rw [hbuf]; exact drawIconE_map_ok l env, rfl⟩⟩
  · obtain ⟨r, rest, hr⟩ := hid hp
    have hunch : s.unchecked ++ [(env.byId delta.id).head?] = (l ++ [r]).map Option.some := by
      rw [hbuf, hr]
      simp
    rw [onChanged_eq_terminal env delta s hp, hunch, drawIconE_map_ok]
    exact ⟨rfl, fun _ => ⟨r, rest, hr, by rw [hbuf]; simp, by simp⟩,
      fun hc => by simp [hp] at hc, rfl, ⟨_, drawIconE_map_ok (l ++ [r]) env, rfl⟩⟩

/-- Witness for C5: a terminal delta whose lookup finds the record; the
first event is the `Ping`. -/
theorem onChanged_contract_witness :
    (onChanged ⟨[], fun _ => [⟨5, DState.complete, false, none, some 9, some 9⟩]⟩
        ⟨5, some ⟨DState.complete, none⟩⟩ ⟨none, [], 0, []⟩).events.head? =
      some (Event.send Message.Ping) :=
  (onChanged_contract ⟨[], fun _ => [⟨5, DState.complete, false, none, some 9, some 9⟩]⟩
    ⟨5, some ⟨DState.complete, none⟩⟩ [] ⟨none, [], 0, []⟩ rfl
    (fun _ => ⟨⟨5, DState.complete, false, none, some 9, some 9⟩, [], rfl⟩)).1

/-! ### C9: the message-handler contract -/

/-- C9: a `PopupOpened` message empties the unseen buffer (timer and
intervals untouched) and redraws — the emitted draw takes its color from
the now-empty buffer, ignoring all previously unseen records; every other
message kind changes nothing and emits nothing. -/
theorem onMessage_contract (env : Env) (m : Message) (s : MState) :
    (m = Message.PopupOpened →
      onMessage env m s =
        ⟨{ s with unchecked := [] },
          [Event.draw (summaryColor [] env.active)
            (if env.active.length > 0 then
              some (jsDiv (aggregate (env.active.map Option.some)).1
                (aggregate (env.active.map Option.some)).2)
            else none)], false⟩) ∧
    (m ≠ Message.PopupOpened → onMessage env m s = ⟨s, [], false⟩) := by
  constructor
  · rintro rfl
    have h := drawIconE_map_ok [] env
    simp only [List.map_nil, List.nil_append] at h
    simp [onMessage, eventsOf, h]
  · intro hm
    simp [onMessage, hm]

/-- Witness for C9: a `Ping` from the popup leaves the state untouched and
emits nothing, even with a stale entry in the buffer. -/
theorem onMessage_contract_witness :
    onMessage ⟨[], fun _ => []⟩ Message.Ping ⟨some 0, [0], 1, [none]⟩ =
      ⟨⟨some 0, [0], 1, [none]⟩, [], false⟩ :=
  (onMessage_contract ⟨[], fun _ => []⟩ Message.Ping ⟨some 0, [0], 1, [none]⟩).2 (by decide)

/-! ### C7 and C8: the poll timer -/

/-- C7: `start` is a no-op while the timer runs, creates no timer while
idle with no active download, and preserves the at-most-one-live-interval
invariant: at most one timer instance ever exists. -/
theorem start_idempotent (env : Env) (s : MState) :
    (s.timer.isSome = true → start env s = (s, [])) ∧
    (s.timer = none → env.active = [] → start env s = (s, [])) ∧
    (timerOk s = true → timerOk (start env s).1 = true) := by
  refine ⟨?_, ?_, ?_⟩
  · intro h
    simp [start, h]
  · intro h ha
    simp [start, h, ha]
  · intro hok
    by_cases ht : s.timer.isSome = true
    · simp [start, ht, hok]
    · have hn : s.timer = none := by
        cases h : s.timer
        · rfl
        · simp [h] at ht
      by_cases ha : env.active.length ≤ 0
      · simp [start, hn, ha, hok]
      · have hpos : env.active.length > 0 := Nat.lt_of_not_le ha
        have hint : s.intervals = [] := by
          simpa [timerOk, hn] using hok
        simp [start, hn, ha, tick, hpos, timerOk, hint]

/-- Witness for C7: a second `start` while the timer runs returns at once,
leaving the single existing timer in place. -/
theorem start_idempotent_witness :
    start ⟨[⟨1, DState.in_progress, false, none, some 1, some 2⟩], fun _ => []⟩
      ⟨some 4, [4], 5, []⟩ = (⟨some 4, [4], 5, []⟩, []) :=
  (start_idempotent ⟨[⟨1, DState.in_progress, false, none, some 1, some 2⟩], fun _ => []⟩
    ⟨some 4, [4], 5, []⟩).1 rfl

/-- C8: a tick that finds no active download releases the timer handle and
leaves no live interval (so no further ticks can fire until a new start);
a tick that finds active downloads emits `Ping` and the redraw and leaves
the state — hence the running timer — unchanged. -/
theorem tick_contract (env : Env) (l : List DownloadItem) (s : MState)
    (hbuf : s.unchecked = l.map Option.some) :
    (env.active = [] → timerOk s = true →
      (tick env s).1.timer = none ∧ (tick env s).1.intervals = [] ∧ (tick env s).2 = []) ∧
    (env.active ≠ [] →
      (tick env s).1 = s ∧
      ∃ e, drawIconE s.unchecked env = Except.ok e ∧
        (tick env s).2 = [Event.send Message.Ping, e]) := by
  constructor
  · intro ha hok
    have hlen : ¬ env.active.length > 0 := by simp [ha]
    cases ht : s.timer with
    | none =>
      have hint : s.intervals = [] := by simpa [timerOk, ht] using hok
      simp [tick, hlen, stop, ht, hint]
    | some h =>
      have hint : s.intervals = [h] := by
        have h2 := hok
        simp [timerOk, ht] at h2
        exact h2.1
      simp [tick, hlen, stop, ht, hint]
  · intro ha
    have hlen : env.active.length > 0 := List.length_pos.mpr ha
    have hdraw : drawIconE s.unchecked env =
        Except.ok (Event.draw (summaryColor l env.active)
          (if env.active.length > 0 then
            some (jsDiv (aggregate (l.map Option.some ++ env.active.map Option.some)).1
              (aggregate (l.map Option.some ++ env.active.map Option.some)).2)
          else none)) := by
      rw [hbuf]
      exact drawIconE_map_ok l env
    refine ⟨by simp [tick, hlen], ⟨_, hdraw, ?_⟩⟩
    simp [tick, hlen, eventsOf, hdraw]

/-- Witness for C8: a tick with no active download, from a running timer
with handle 0, releases the handle and every live interval. -/
theorem tick_contract_witness :
    (tick ⟨[], fun _ => []⟩ ⟨some 0, [0], 1, []⟩).1.timer = none ∧
    (tick ⟨[], fun _ => []⟩ ⟨some 0, [0], 1, []⟩).1.intervals = [] ∧
    (tick ⟨[], fun _ => []⟩ ⟨some 0, [0], 1, []⟩).2 = [] :=
  (tick_contract ⟨[], fun _ => []⟩ [] ⟨some 0, [0], 1, []⟩ rfl).1 rfl (by decide)
